import Mathlib

/-!
Verification of the analize ingestion/reconciliation pipeline.

This file shallowly embeds the data-access layer (`src/analize/dal/database.py`),
the MCP deletion helper (`src/analize/mcp/database.py`), the two resolvers
(`src/analize/processing/lab_normalizer.py`, `test_normalizer.py`) and the upload
deduplication path (`src/analize/upload/routes.py`) of the repository, and proves
properties of the embedded operations.

Modelling conventions:
- SQLite tables are lists of row structures kept in rowid (insertion) order;
  `AUTOINCREMENT` columns are modelled by a `next_*_id` counter in the `DB` state.
- `CURRENT_TIMESTAMP` defaults are modelled by an explicit `now : Nat` argument.
- `REAL` columns carry `Rat` values: the embedded operations only store and
  compare these values, never compute with them.
- Fallible SQL statements (INSERTs that can violate a UNIQUE constraint) and
  Python code that can raise return `Except String`.
- The LLM collaborators are opaque: each resolver call takes the parse outcome
  of the collaborator response as an explicit argument (`none` models a
  `json.JSONDecodeError`; a parsed dict is modelled with one `Option` field per
  JSON key, `none` meaning the key is absent).
-/

namespace Analize

/-- Embedding of Python `str.lower()` for one character, on the ASCII range
(the repository compares lowercased test-type names; the names exercised by
the code and its tests are ASCII). -/
def pyLowerChar (c : Char) : Char :=
  if 65 ≤ c.toNat ∧ c.toNat ≤ 90 then Char.ofNat (c.toNat + 32) else c

/-- Embedding of Python `str.lower()`. -/
def pyLower (s : String) : String :=
  String.mk (s.data.map pyLowerChar)

/-- Bytewise-style comparison of two character lists by code point, modelling
SQLite BINARY collation (codepoint order coincides with UTF-8 byte order). -/
def charListLe : List Char → List Char → Bool
  | [], _ => true
  | _ :: _, [] => false
  | a :: as, b :: bs =>
    if a.toNat < b.toNat then true
    else if b.toNat < a.toNat then false
    else charListLe as bs

/-- String comparison used for `ORDER BY` on TEXT columns. -/
def strLeB (a b : String) : Bool :=
  charListLe a.data b.data

/-- Insert an element into a sorted list (helper for `orderBy`). -/
def insertSorted (le : α → α → Bool) (a : α) : List α → List α
  | [] => [a]
  | b :: l => if le a b then a :: b :: l else b :: insertSorted le a l

/-- Stable sort modelling a SQL `ORDER BY` clause. -/
def orderBy (le : α → α → Bool) : List α → List α
  | [] => []
  | a :: l => insertSorted le a (orderBy le l)

/-- A row of the `labs` table (schema in dal/database.py: id, name UNIQUE,
address, phone, email, accreditation, created_at). -/
structure LabRow where
  id : Nat
  name : String
  address : Option String
  phone : Option String
  email : Option String
  accreditation : Option String
  created_at : Nat
deriving Repr, DecidableEq

/-- A row of the `test_types` table (id, standard_name UNIQUE, description,
category). -/
structure TestTypeRow where
  id : Nat
  standard_name : String
  description : Option String
  category : Option String
deriving Repr, DecidableEq

/-- A row of the `documents` table (id, user_id, lab_id nullable, file_path,
content_hash, uploaded_at, processed_at nullable, tokens, cost). -/
structure DocumentRow where
  id : Nat
  user_id : Nat
  lab_id : Option Nat
  file_path : String
  content_hash : String
  uploaded_at : Nat
  processed_at : Option Nat
  tokens : Option String
  cost : Option Rat
deriving Repr, DecidableEq

/-- A row of the `test_results` table, fields in schema order
(dal/database.py lines 104-127). `test_date` is the DATE column, stored as the
ISO text the callers pass in. -/
structure TestResultRow where
  id : Nat
  test_type_id : Nat
  user_id : Nat
  document_id : Nat
  lab_id : Nat
  lab_test_name : String
  value : Option Rat
  value_text : Option String
  value_normalized : Option String
  unit : Option String
  lower_limit : Option Rat
  upper_limit : Option Rat
  test_date : String
  interpretation : Option String
  documentation : Option String
  created_at : Nat
  updated_at : Nat
deriving Repr, DecidableEq

/-- The SQLite database state of the dal schema: one list per table, in rowid
order, plus the AUTOINCREMENT counters. -/
structure DB where
  labs : List LabRow
  test_types : List TestTypeRow
  documents : List DocumentRow
  test_results : List TestResultRow
  next_lab_id : Nat
  next_test_type_id : Nat
  next_document_id : Nat
  next_result_id : Nat
deriving Repr, DecidableEq

/-- A freshly initialized database (`_init_db` creates empty tables;
AUTOINCREMENT ids start at 1). -/
def DB.empty : DB :=
  { labs := [], test_types := [], documents := [], test_results := []
    next_lab_id := 1, next_test_type_id := 1, next_document_id := 1, next_result_id := 1 }

/-- The WHERE clause `user_id = ? AND test_type_id = ? AND test_date = ? AND
lab_id = ?` used by the natural-key lookups of `upsert_test_result` and
`get_test_result`. -/
def matchesNaturalKey (user_id test_type_id : Nat) (test_date : String) (lab_id : Nat)
    (r : TestResultRow) : Bool :=
  r.user_id == user_id && r.test_type_id == test_type_id &&
    r.test_date == test_date && r.lab_id == lab_id

/-- The natural key (user, test type, test date, lab) of a `test_results` row. -/
def naturalKeyOf (r : TestResultRow) : Nat × Nat × String × Nat :=
  (r.user_id, r.test_type_id, r.test_date, r.lab_id)

/-- The invariant enforced by `UNIQUE (user_id, test_type_id, test_date,
lab_id)` on `test_results`: no two rows share a natural key. -/
def atMostOnePerKey (rows : List TestResultRow) : Prop :=
  rows.Pairwise (fun r1 r2 => naturalKeyOf r1 ≠ naturalKeyOf r2)

/-- `Database.create_lab`: INSERT INTO labs; the `name` column is UNIQUE, so
the statement fails when a lab with the same name exists. Returns the new
lastrowid. -/
def create_lab (db : DB) (name : String)
    (address phone email accreditation : Option String) (now : Nat) :
    Except String (DB × Nat) :=
  if db.labs.any (fun lab => lab.name == name) then
    .error "UNIQUE constraint failed: labs.name"
  else
    .ok ({ db with
            labs := db.labs ++
              [{ id := db.next_lab_id, name := name, address := address, phone := phone,
                 email := email, accreditation := accreditation, created_at := now }]
            next_lab_id := db.next_lab_id + 1 },
         db.next_lab_id)

/-- `Database.list_labs`: SELECT * FROM labs ORDER BY name. -/
def list_labs (db : DB) : List LabRow :=
  orderBy (fun a b => strLeB a.name b.name) db.labs

/-- `Database.create_test_type`: INSERT INTO test_types; `standard_name` is
UNIQUE. Returns the new lastrowid. -/
def create_test_type (db : DB) (standard_name : String)
    (description category : Option String) : Except String (DB × Nat) :=
  if db.test_types.any (fun t => t.standard_name == standard_name) then
    .error "UNIQUE constraint failed: test_types.standard_name"
  else
    .ok ({ db with
            test_types := db.test_types ++
              [{ id := db.next_test_type_id, standard_name := standard_name,
                 description := description, category := category }]
            next_test_type_id := db.next_test_type_id + 1 },
         db.next_test_type_id)

/-- `Database.list_test_types`: SELECT * FROM test_types ORDER BY standard_name. -/
def list_test_types (db : DB) : List TestTypeRow :=
  orderBy (fun a b => strLeB a.standard_name b.standard_name) db.test_types

/-- `Database.create_document`: INSERT INTO documents (user_id, lab_id,
file_path, content_hash); uploaded_at defaults to the current timestamp,
processed_at / tokens / cost start NULL. -/
def create_document (db : DB) (user_id : Nat) (file_path content_hash : String)
    (lab_id : Option Nat) (now : Nat) : DB × Nat :=
  ({ db with
      documents := db.documents ++
        [{ id := db.next_document_id, user_id := user_id, lab_id := lab_id,
           file_path := file_path, content_hash := content_hash, uploaded_at := now,
           processed_at := none, tokens := none, cost := none }]
      next_document_id := db.next_document_id + 1 },
   db.next_document_id)

/-- `Database.get_document_by_hash`: SELECT * FROM documents WHERE
content_hash = ? (fetchone: first row in rowid order). -/
def get_document_by_hash (db : DB) (content_hash : String) : Option DocumentRow :=
  db.documents.find? (fun d => d.content_hash == content_hash)

/-- `Database.mark_document_processed`: UPDATE documents SET processed_at =
CURRENT_TIMESTAMP WHERE id = ?. -/
def mark_document_processed (db : DB) (document_id : Nat) (now : Nat) : DB :=
  { db with
      documents := db.documents.map
        (fun d => if d.id == document_id then { d with processed_at := some now } else d) }

/-- The keyword arguments of `Database.upsert_test_result`, in signature order
(dal/database.py lines 369-385). -/
structure UpsertArgs where
  test_type_id : Nat
  user_id : Nat
  document_id : Nat
  lab_id : Nat
  lab_test_name : String
  test_date : String
  value : Option Rat := none
  value_text : Option String := none
  value_normalized : Option String := none
  unit : Option String := none
  lower_limit : Option Rat := none
  upper_limit : Option Rat := none
  interpretation : Option String := none
  documentation : Option String := none
deriving Repr, DecidableEq

/-- The natural-key lookup at the start of `upsert_test_result` (SELECT id
FROM test_results WHERE user_id = ? AND test_type_id = ? AND test_date = ?
AND lab_id = ?, fetchone). -/
def findResultByKey (db : DB) (a : UpsertArgs) : Option TestResultRow :=
  db.test_results.find? (matchesNaturalKey a.user_id a.test_type_id a.test_date a.lab_id)

/-- The SET list of the UPDATE branch of `upsert_test_result`: overwrites
document_id, lab_test_name, value, value_text, value_normalized, unit,
lower_limit, upper_limit, interpretation, documentation and refreshes
updated_at; every other column is untouched. -/
def updateRowFields (a : UpsertArgs) (now : Nat) (r : TestResultRow) : TestResultRow :=
  { r with
      document_id := a.document_id
      lab_test_name := a.lab_test_name
      value := a.value
      value_text := a.value_text
      value_normalized := a.value_normalized
      unit := a.unit
      lower_limit := a.lower_limit
      upper_limit := a.upper_limit
      interpretation := a.interpretation
      documentation := a.documentation
      updated_at := now }

/-- The row built by the INSERT branch of `upsert_test_result`; created_at and
updated_at take their CURRENT_TIMESTAMP defaults. -/
def newResultRow (db : DB) (a : UpsertArgs) (now : Nat) : TestResultRow :=
  { id := db.next_result_id
    test_type_id := a.test_type_id
    user_id := a.user_id
    document_id := a.document_id
    lab_id := a.lab_id
    lab_test_name := a.lab_test_name
    value := a.value
    value_text := a.value_text
    value_normalized := a.value_normalized
    unit := a.unit
    lower_limit := a.lower_limit
    upper_limit := a.upper_limit
    test_date := a.test_date
    interpretation := a.interpretation
    documentation := a.documentation
    created_at := now
    updated_at := now }

/-- The raw INSERT INTO test_results statement, under the schema constraint
`UNIQUE (user_id, test_type_id, test_date, lab_id)`: the storage engine
rejects the row when one with the same natural key already exists. -/
def insertTestResultStmt (db : DB) (a : UpsertArgs) (now : Nat) :
    Except String (DB × Nat) :=
  if db.test_results.any (matchesNaturalKey a.user_id a.test_type_id a.test_date a.lab_id) then
    .error "UNIQUE constraint failed: test_results natural key"
  else
    .ok ({ db with
            test_results := db.test_results ++ [newResultRow db a now]
            next_result_id := db.next_result_id + 1 },
         db.next_result_id)

/-- `Database.upsert_test_result` run without interference: looks up the
natural key; if a row exists, UPDATEs it in place (WHERE id = result_id) and
returns (id, False); otherwise INSERTs a new row and returns (lastrowid,
True). In this sequential execution the INSERT can never hit the UNIQUE
constraint, because the lookup just returned no row for the key. -/
def upsert_test_result (db : DB) (a : UpsertArgs) (now : Nat) : DB × Nat × Bool :=
  match findResultByKey db a with
  | some existing =>
      ({ db with
          test_results := db.test_results.map
            (fun r => if r.id == existing.id then updateRowFields a now r else r) },
       existing.id, false)
  | none =>
      ({ db with
          test_results := db.test_results ++ [newResultRow db a now]
          next_result_id := db.next_result_id + 1 },
       db.next_result_id, true)

/-- `Database.upsert_test_result` when a concurrent writer `w` commits between
the natural-key lookup and the branch body: the branch executes against the
changed state `w db`. The Python function wraps neither statement in a
try/except, so a UNIQUE-constraint rejection of the INSERT propagates to the
caller (modelled by the `Except.error` of `insertTestResultStmt`). -/
def upsert_test_result_raced (db : DB) (w : DB → DB) (a : UpsertArgs) (now : Nat) :
    Except String (DB × Nat × Bool) :=
  match findResultByKey db a with
  | some existing =>
      .ok ({ w db with
              test_results := (w db).test_results.map
                (fun r => if r.id == existing.id then updateRowFields a now r else r) },
           existing.id, false)
  | none =>
      (insertTestResultStmt (w db) a now).map (fun p => (p.1, p.2, true))

/-- `DatabaseMCP.delete_results_for_document`: DELETE FROM test_results WHERE
document_id = ?; returns the deleted-row count. -/
def delete_results_for_document (db : DB) (document_id : Nat) : DB × Nat :=
  ({ db with
      test_results := db.test_results.filter (fun r => !(r.document_id == document_id)) },
   (db.test_results.filter (fun r => r.document_id == document_id)).length)

/-- Modelled from the spec: the reset-to-unprocessed step of the `reprocess`
operation is not in src (the upload route only mentions a reprocess endpoint,
and only `delete_results_for_document` exists); per the spec the operation
"returns it to `uploaded` without deleting the Document or Laboratory link",
i.e. it clears processed_at of the document and touches nothing else. -/
def reset_document_unprocessed (db : DB) (document_id : Nat) : DB :=
  { db with
      documents := db.documents.map
        (fun d => if d.id == document_id then { d with processed_at := none } else d) }

/-- The `reprocess` operation: delete the Observations owned by the document,
then return it to the unprocessed state (the second step modelled from the
spec, see `reset_document_unprocessed`). -/
def reprocess_document (db : DB) (document_id : Nat) : DB × Nat :=
  let p := delete_results_for_document db document_id
  (reset_document_unprocessed p.1 document_id, p.2)

/-- `ExtractedLab` (models/schemas.py): transient lab description returned by
the extractor. -/
structure ExtractedLab where
  name : String
  address : Option String := none
  phone : Option String := none
  email : Option String := none
  accreditation : Option String := none
deriving Repr, DecidableEq

/-- `ExtractedTest` (models/schemas.py lines 95-115): transient observation
returned by the extractor. `test_date` is the ISO date string; `confidence`
is the extractor score in [0, 1]. -/
structure ExtractedTest where
  lab_test_name : String
  lab_test_code : Option String := none
  suggested_standard_name : String
  value : Option Rat := none
  value_text : Option String := none
  value_normalized : Option String := none
  unit : Option String := none
  lower_limit : Option Rat := none
  upper_limit : Option Rat := none
  test_date : String
  interpretation : Option String := none
  documentation : Option String := none
  confidence : Rat := 1
deriving Repr, DecidableEq

/-- The dict parsed from the test-normalization collaborator response.
`match_val` is the value of the "match" key (`none` when absent; `dict.get`
then yields a falsy None), `standard_name` the value of the "standard_name"
key (`none` when absent; `result["standard_name"]` then raises KeyError). -/
structure TestMatchDict where
  match_val : Option Bool
  standard_name : Option String
deriving Repr, DecidableEq

/-- The dict parsed from the lab-normalization collaborator response.
`match_val` is the value of the "match" key, `lab_id` the value of the
"lab_id" key (`none` when absent; `result["lab_id"]` then raises KeyError). -/
structure LabMatchDict where
  match_val : Option Bool
  lab_id : Option Nat
deriving Repr, DecidableEq

/-- The value `result["standard_name"]` holds after the response-parsing step
of `get_or_create_test_type` (the chosen standard name): the parsed dict entry
when the response parses, the suggested name when parsing failed. `none` means
the key is absent and reading it raises. -/
def chosen_standard_name (extracted : ExtractedTest) (response : Option TestMatchDict) :
    Option String :=
  match response with
  | none => some extracted.suggested_standard_name
  | some d => d.standard_name

/-- Lines 110-125 of test_normalizer.py: the deterministic fallback executed
when the classifier reported no match, or reported a match whose name is not
in the registry: case-insensitive exact check of `result["standard_name"]`
against the registry, reusing the hit, otherwise creating a new test type. -/
def testTypeFallback (db : DB) (existing_types : List TestTypeRow)
    (result : TestMatchDict) : Except String (DB × TestTypeRow) :=
  match result.standard_name with
  | none => .error "KeyError: standard_name"
  | some standard_name =>
    match existing_types.find?
        (fun t => pyLower t.standard_name == pyLower standard_name) with
    | some t => .ok (db, t)
    | none =>
      match create_test_type db standard_name none none with
      | .ok p => .ok (p.1, { id := p.2, standard_name := standard_name,
                             description := none, category := none })
      | .error e => .error e

/-- `TestNormalizer.get_or_create_test_type` (test_normalizer.py lines
50-125). `response` is the parse outcome of the LLM reply: `none` models a
JSONDecodeError, whereupon the code substitutes
`{"match": False, "standard_name": suggested_standard_name}`. On a truthy
"match" the reported name is looked up verbatim in the registry; a miss (or a
falsy "match") falls through to the deterministic case-insensitive check
before creating. Reading a missing "standard_name" key raises KeyError. -/
def get_or_create_test_type (db : DB) (extracted : ExtractedTest)
    (response : Option TestMatchDict) : Except String (DB × TestTypeRow) :=
  let existing_types := list_test_types db
  if existing_types.isEmpty then
    match create_test_type db extracted.suggested_standard_name none none with
    | .ok p => .ok (p.1, { id := p.2, standard_name := extracted.suggested_standard_name,
                           description := none, category := none })
    | .error e => .error e
  else
    let result : TestMatchDict :=
      match response with
      | none => { match_val := some false, standard_name := some extracted.suggested_standard_name }
      | some d => d
    if result.match_val.getD false then
      match result.standard_name with
      | none => .error "KeyError: standard_name"
      | some standard_name =>
        match existing_types.find? (fun t => t.standard_name == standard_name) with
        | some t => .ok (db, t)
        | none => testTypeFallback db existing_types result
    else
      testTypeFallback db existing_types result

/-- `LabNormalizer.get_or_create_lab` (lab_normalizer.py lines 52-140).
`response` is the parse outcome of the LLM reply: `none` models a
JSONDecodeError, whereupon the code substitutes `{"match": False}`. On a
truthy "match" the reported lab_id is looked up in the candidate list; a
dangling id falls through to creation. Reading a missing "lab_id" key raises
KeyError, and `create_lab` fails when the extracted name collides with the
UNIQUE labs.name column. -/
def get_or_create_lab (db : DB) (extracted : ExtractedLab)
    (response : Option LabMatchDict) (now : Nat) : Except String (DB × LabRow) :=
  let existing_labs := list_labs db
  let createNew : Except String (DB × LabRow) :=
    match create_lab db extracted.name extracted.address extracted.phone
        extracted.email extracted.accreditation now with
    | .ok p => .ok (p.1, { id := p.2, name := extracted.name, address := extracted.address,
                           phone := extracted.phone, email := extracted.email,
                           accreditation := extracted.accreditation, created_at := now })
    | .error e => .error e
  if existing_labs.isEmpty then
    createNew
  else
    let result : LabMatchDict := response.getD { match_val := some false, lab_id := none }
    if result.match_val.getD false then
      match result.lab_id with
      | none => .error "KeyError: lab_id"
      | some lid =>
        match existing_labs.find? (fun lab => lab.id == lid) with
        | some lab => .ok (db, lab)
        | none => createNew
    else
      createNew

/-- The loop body of `TestNormalizer.normalize_and_store` (test_normalizer.py
lines 147-170). For each extracted test it resolves the test type, then calls
`self.db.upsert_test_result` with keyword arguments that include
`clinical_status=extracted.clinical_status` and `raw_text=extracted.raw_text`;
`ExtractedTest` defines neither attribute, so evaluating the argument list
raises AttributeError before `upsert_test_result` is entered (and the dal
signature accepts neither keyword, so the call could not succeed regardless).
`responses` gives the parse outcome of the i-th LLM call. Side effects
committed before the exception (the resolved test type) persist, but the
exception propagates out of the loop. -/
def normalizeStoreLoop (document_id : Nat) (responses : Nat → Option TestMatchDict)
    (now : Nat) : DB → List Nat → Nat → List ExtractedTest → Except String (DB × List Nat)
  | db, result_ids, _, [] =>
      .ok (mark_document_processed db document_id now, result_ids.reverse)
  | db, _, i, extracted :: _ =>
      match get_or_create_test_type db extracted (responses i) with
      | .error e => .error e
      | .ok _ => .error "AttributeError: ExtractedTest has no attribute clinical_status"

/-- `TestNormalizer.normalize_and_store` (test_normalizer.py lines 127-175):
resolve each extracted test, store it through the upsert, then mark the
document processed and return the result ids. See `normalizeStoreLoop` for
the AttributeError raised by the stored upsert call on every iteration. -/
def normalize_and_store (db : DB) (user_id document_id lab_id : Nat)
    (extracted_tests : List ExtractedTest) (responses : Nat → Option TestMatchDict)
    (now : Nat) : Except String (DB × List Nat) :=
  -- user_id and lab_id are consumed only by the upsert call that the
  -- AttributeError prevents from being entered
  let _ := user_id
  let _ := lab_id
  normalizeStoreLoop document_id responses now db [] 0 extracted_tests

/-- The on-disk upload directory: path ↦ file bytes (bytes as Nat lists). -/
structure FileSys where
  files : List (String × List Nat)
deriving Repr, DecidableEq

/-- `file.save(file_path)`: write the bytes at the path, overwriting. -/
def fsSave (fs : FileSys) (path : String) (bytes : List Nat) : FileSys :=
  ⟨fs.files.filter (fun pb => !(pb.1 == path)) ++ [(path, bytes)]⟩

/-- `file_path.unlink()`: remove the file at the path. -/
def fsUnlink (fs : FileSys) (path : String) : FileSys :=
  ⟨fs.files.filter (fun pb => !(pb.1 == path))⟩

/-- Whether a file exists at the path. -/
def fsHasPath (fs : FileSys) (path : String) : Bool :=
  fs.files.any (fun pb => pb.1 == path)

/-- The result of the upload route: database, disk, and the JSON payload
fields document_id and is_duplicate. -/
structure UploadOutcome where
  db : DB
  fs : FileSys
  document_id : Nat
  is_duplicate : Bool
deriving Repr, DecidableEq

/-- `upload_file` (upload/routes.py lines 91-129), from the save step onward
(the guards at lines 65-89 return a 400 before any state change and are not
modelled). `hashFn` stands for `compute_file_hash`, the SHA-256 hex digest of
the full byte stream: the chunked 8192-byte reads feed one digest, so the
fingerprint is a pure function of the saved bytes. The route saves the file
under `{user_id}_{filename}`, hashes it, and either short-circuits on an
existing document with the same fingerprint (deleting the fresh copy) or
records a new document. -/
def upload_file (hashFn : List Nat → String) (db : DB) (fs : FileSys)
    (user_id : Nat) (filename : String) (bytes : List Nat) (now : Nat) : UploadOutcome :=
  let file_path := "uploads/" ++ toString user_id ++ "_" ++ filename
  let fs1 := fsSave fs file_path bytes
  let content_hash := hashFn bytes
  match get_document_by_hash db content_hash with
  | some existing =>
      { db := db, fs := fsUnlink fs1 file_path,
        document_id := existing.id, is_duplicate := true }
  | none =>
      let p := create_document db user_id file_path content_hash none now
      { db := p.1, fs := fs1, document_id := p.2, is_duplicate := false }

/-! Concrete fixtures, used by the closed evaluation theorems below. They
mirror the data of the repository test suite (tests/test_app.py): a Glucoza
observation for user 1 on 2024-01-15 at lab 1. -/

/-- First upsert payload of the test-suite scenario (value 95). -/
def fxArgs : UpsertArgs :=
  { test_type_id := 1, user_id := 1, document_id := 1, lab_id := 1,
    lab_test_name := "Glucoza", test_date := "2024-01-15", value := some 95 }

/-- Second payload for the same natural key (value 110, later document). -/
def fxArgs2 : UpsertArgs :=
  { test_type_id := 1, user_id := 1, document_id := 2, lab_id := 1,
    lab_test_name := "Glucoza", test_date := "2024-01-15", value := some 110 }

/-- A stored `test_results` row for the natural key of `fxArgs`. -/
def fxRow : TestResultRow :=
  { id := 1, test_type_id := 1, user_id := 1, document_id := 1, lab_id := 1,
    lab_test_name := "Glucoza", value := some 95, value_text := none,
    value_normalized := none, unit := none, lower_limit := none, upper_limit := none,
    test_date := "2024-01-15", interpretation := none, documentation := none,
    created_at := 1, updated_at := 1 }

/-- A second stored row owned by document 2 (different test date). -/
def fxRowOther : TestResultRow :=
  { fxRow with id := 2, document_id := 2, test_date := "2024-02-20" }

/-- Database holding exactly the row `fxRow`. -/
def fxDbOneResult : DB :=
  { DB.empty with test_results := [fxRow], next_result_id := 2 }

/-- Database holding `fxRow` (document 1) and `fxRowOther` (document 2). -/
def fxDbTwoResults : DB :=
  { DB.empty with
      test_results := [fxRow, fxRowOther]
      documents := [{ id := 1, user_id := 1, lab_id := some 1, file_path := "uploads/1_a.pdf",
                      content_hash := "h1", uploaded_at := 1, processed_at := some 2,
                      tokens := none, cost := none },
                    { id := 2, user_id := 1, lab_id := some 1, file_path := "uploads/1_b.pdf",
                      content_hash := "h2", uploaded_at := 3, processed_at := some 4,
                      tokens := none, cost := none }]
      next_document_id := 3, next_result_id := 3 }

/-- The registered test type of the test suite. -/
def fxTypeRow : TestTypeRow :=
  { id := 1, standard_name := "Blood Glucose", description := none, category := none }

/-- Database whose test-type registry holds exactly "Blood Glucose". -/
def fxDbOneType : DB :=
  { DB.empty with test_types := [fxTypeRow], next_test_type_id := 2 }

/-- An extracted observation whose suggested canonical name differs from the
registered "Blood Glucose" only by case. -/
def fxExtracted : ExtractedTest :=
  { lab_test_name := "Glucoza", suggested_standard_name := "blood glucose",
    test_date := "2024-01-15", value := some 95 }

/-- A registered laboratory. -/
def fxLabRow : LabRow :=
  { id := 1, name := "Synevo", address := none, phone := none, email := none,
    accreditation := none, created_at := 0 }

/-- Database whose laboratory registry holds exactly "Synevo". -/
def fxDbOneLab : DB :=
  { DB.empty with labs := [fxLabRow], next_lab_id := 2 }

/-- An extracted lab whose name collides with the registered "Synevo". -/
def fxExtractedLab : ExtractedLab := { name := "Synevo" }

/-- An extracted lab with a fresh name. -/
def fxExtractedLabNew : ExtractedLab := { name := "MedLife" }

/-- A concrete stand-in fingerprint function for evaluating the upload model. -/
def fxHash (b : List Nat) : String :=
  String.mk (b.map (fun n => Char.ofNat (97 + n % 26)))

/-! ## Helper lemmas -/

theorem mem_insertSorted {le : α → α → Bool} {a x : α} {l : List α} :
    a ∈ insertSorted le x l ↔ a = x ∨ a ∈ l := by
  induction l with
  | nil => simp [insertSorted]
  | cons b t ih =>
    simp only [insertSorted]
    split
    · simp
    · simp only [List.mem_cons, ih]
      tauto

theorem mem_orderBy {le : α → α → Bool} {a : α} {l : List α} :
    a ∈ orderBy le l ↔ a ∈ l := by
  induction l with
  | nil => simp [orderBy]
  | cons b t ih => simp [orderBy, mem_insertSorted, ih]

theorem insertSorted_ne_nil {le : α → α → Bool} {x : α} {l : List α} :
    insertSorted le x l ≠ [] := by
  cases l with
  | nil => simp [insertSorted]
  | cons b t =>
    simp only [insertSorted]
    split <;> simp

theorem orderBy_nil_iff {le : α → α → Bool} {l : List α} :
    orderBy le l = [] ↔ l = [] := by
  cases l with
  | nil => simp [orderBy]
  | cons b t => simp [orderBy, insertSorted_ne_nil]

theorem mem_list_test_types {db : DB} {t : TestTypeRow} :
    t ∈ list_test_types db ↔ t ∈ db.test_types :=
  mem_orderBy

theorem mem_list_labs {db : DB} {lab : LabRow} :
    lab ∈ list_labs db ↔ lab ∈ db.labs :=
  mem_orderBy

theorem list_test_types_isEmpty_false {db : DB} (h : db.test_types ≠ []) :
    (list_test_types db).isEmpty = false := by
  rcases hcase : list_test_types db with _ | _
  · exact absurd (orderBy_nil_iff.mp hcase) h
  · rfl

theorem list_labs_isEmpty_false {db : DB} (h : db.labs ≠ []) :
    (list_labs db).isEmpty = false := by
  rcases hcase : list_labs db with _ | _
  · exact absurd (orderBy_nil_iff.mp hcase) h
  · rfl

theorem matchesNaturalKey_eq_true_iff {u t : Nat} {d : String} {l : Nat}
    {r : TestResultRow} :
    matchesNaturalKey u t d l r = true ↔ naturalKeyOf r = (u, t, d, l) := by
  simp [matchesNaturalKey, naturalKeyOf, Prod.ext_iff, and_assoc]

theorem naturalKeyOf_updateRowFields (a : UpsertArgs) (now : Nat) (r : TestResultRow) :
    naturalKeyOf (updateRowFields a now r) = naturalKeyOf r := rfl

theorem matchesNaturalKey_updateRowFields {u t : Nat} {d : String} {l : Nat}
    (a : UpsertArgs) (now : Nat) (r : TestResultRow) :
    matchesNaturalKey u t d l (updateRowFields a now r) = matchesNaturalKey u t d l r := rfl

theorem naturalKeyOf_newResultRow (db : DB) (a : UpsertArgs) (now : Nat) :
    naturalKeyOf (newResultRow db a now) = (a.user_id, a.test_type_id, a.test_date, a.lab_id) :=
  rfl

theorem matchesNaturalKey_newResultRow (db : DB) (a : UpsertArgs) (now : Nat) :
    matchesNaturalKey a.user_id a.test_type_id a.test_date a.lab_id (newResultRow db a now)
      = true := by
  simp [matchesNaturalKey, newResultRow]

theorem create_lab_isOk {db : DB} {name : String}
    {address phone email accreditation : Option String} {now : Nat}
    (h : ∀ l0 ∈ db.labs, l0.name ≠ name) :
    ∃ p, create_lab db name address phone email accreditation now = .ok p := by
  have hany : db.labs.any (fun lab => lab.name == name) = false := by
    rw [List.any_eq_false]
    intro l0 hl0
    simpa using h l0 hl0
  unfold create_lab
  simp only [hany, Bool.false_eq_true, if_false]
  exact ⟨_, rfl⟩

theorem create_test_type_isOk {db : DB} {standard_name : String}
    {description category : Option String}
    (h : ∀ t0 ∈ db.test_types, t0.standard_name ≠ standard_name) :
    ∃ p, create_test_type db standard_name description category = .ok p := by
  have hany : db.test_types.any (fun t => t.standard_name == standard_name) = false := by
    rw [List.any_eq_false]
    intro t0 ht0
    simpa using h t0 ht0
  unfold create_test_type
  simp only [hany, Bool.false_eq_true, if_false]
  exact ⟨_, rfl⟩

theorem upsert_insert_parts (db : DB) (a : UpsertArgs) (now : Nat)
    (h : findResultByKey db a = none) :
    (upsert_test_result db a now).1.test_results
        = db.test_results ++ [newResultRow db a now] ∧
    (upsert_test_result db a now).2.1 = db.next_result_id ∧
    (upsert_test_result db a now).2.2 = true := by
  unfold upsert_test_result
  rw [h]
  exact ⟨rfl, rfl, rfl⟩

theorem upsert_update_parts (db : DB) (a : UpsertArgs) (now : Nat) (e : TestResultRow)
    (h : findResultByKey db a = some e) :
    (upsert_test_result db a now).1.test_results
        = db.test_results.map (fun r => if r.id == e.id then updateRowFields a now r else r) ∧
    (upsert_test_result db a now).2.1 = e.id ∧
    (upsert_test_result db a now).2.2 = false := by
  unfold upsert_test_result
  rw [h]
  exact ⟨rfl, rfl, rfl⟩

/-! ## Claim theorems -/

/-- C10: when `upsert_test_result` takes the update branch (a row exists for
the natural key), the table becomes the pointwise update of the old table at
the found id, the call returns (that id, False), and the update writes exactly
document_id, lab_test_name, value, value_text, value_normalized, unit,
lower_limit, upper_limit, interpretation, documentation and updated_at,
leaving id, user_id, test_type_id, test_date, lab_id and created_at
unchanged. -/
theorem upsert_update_branch_frame
    (db : DB) (a : UpsertArgs) (now : Nat) (e : TestResultRow)
    (hfound : findResultByKey db a = some e) :
    (upsert_test_result db a now).1.test_results
        = db.test_results.map (fun r => if r.id == e.id then updateRowFields a now r else r) ∧
    (upsert_test_result db a now).2 = (e.id, false) ∧
    ∀ r : TestResultRow,
      (updateRowFields a now r).id = r.id ∧
      (updateRowFields a now r).user_id = r.user_id ∧
      (updateRowFields a now r).test_type_id = r.test_type_id ∧
      (updateRowFields a now r).test_date = r.test_date ∧
      (updateRowFields a now r).lab_id = r.lab_id ∧
      (updateRowFields a now r).created_at = r.created_at ∧
      (updateRowFields a now r).document_id = a.document_id ∧
      (updateRowFields a now r).lab_test_name = a.lab_test_name ∧
      (updateRowFields a now r).value = a.value ∧
      (updateRowFields a now r).value_text = a.value_text ∧
      (updateRowFields a now r).value_normalized = a.value_normalized ∧
      (updateRowFields a now r).unit = a.unit ∧
      (updateRowFields a now r).lower_limit = a.lower_limit ∧
      (updateRowFields a now r).upper_limit = a.upper_limit ∧
      (updateRowFields a now r).interpretation = a.interpretation ∧
      (updateRowFields a now r).documentation = a.documentation ∧
      (updateRowFields a now r).updated_at = now := by
  unfold upsert_test_result
  rw [hfound]
  refine ⟨rfl, rfl, ?_⟩
  intro r
  and_intros <;> rfl

/-- C10 witness: the update branch evaluated on the one-row fixture database. -/
theorem upsert_update_branch_frame_witness :
    (upsert_test_result fxDbOneResult fxArgs2 7).1.test_results
        = fxDbOneResult.test_results.map
            (fun r => if r.id == fxRow.id then updateRowFields fxArgs2 7 r else r) ∧
    (upsert_test_result fxDbOneResult fxArgs2 7).2 = (fxRow.id, false) :=
  ⟨(upsert_update_branch_frame fxDbOneResult fxArgs2 7 fxRow rfl).1,
   (upsert_update_branch_frame fxDbOneResult fxArgs2 7 fxRow rfl).2.1⟩

/-- C9 counterexample: the claim says a natural-key constraint violation
raised by the INSERT branch (a concurrent writer inserted the row between the
lookup and the INSERT) is retried as an update and returns normally. On the
code it is not: starting from an empty table, with a concurrent upsert of the
same natural key committing between the lookup and the INSERT, the call
surfaces the UNIQUE-constraint error to the caller. -/
theorem upsert_race_cex :
    upsert_test_result_raced DB.empty
        (fun db => (upsert_test_result db fxArgs2 3).1) fxArgs 5
      = .error "UNIQUE constraint failed: test_results natural key" := by
  rfl

/-- C9 amended: `upsert_test_result` contains no retry: whenever the lookup
finds no row but the state the INSERT executes against does contain a row for
the natural key, the UNIQUE-constraint error is surfaced to the caller
instead of being retried as an update. (Sequentially, with no interleaved
writer, the INSERT branch never violates the constraint.) -/
theorem upsert_race_surfaces_error
    (db : DB) (w : DB → DB) (a : UpsertArgs) (now : Nat)
    (hnone : findResultByKey db a = none)
    (hconc : (w db).test_results.any
        (matchesNaturalKey a.user_id a.test_type_id a.test_date a.lab_id) = true) :
    upsert_test_result_raced db w a now
      = .error "UNIQUE constraint failed: test_results natural key" := by
  unfold upsert_test_result_raced insertTestResultStmt
  rw [hnone, hconc]
  rfl

/-- C9 amended witness: the surfacing behavior evaluated on a concrete race. -/
theorem upsert_race_surfaces_error_witness :
    upsert_test_result_raced fxDbOneLab (fun _ => fxDbOneResult) fxArgs 11
      = .error "UNIQUE constraint failed: test_results natural key" :=
  upsert_race_surfaces_error fxDbOneLab (fun _ => fxDbOneResult) fxArgs 11 rfl rfl

/-- C6: evaluating `normalize_and_store` on a non-empty extraction list. The
claim says every observation is written through the upsert and the document
is then marked processed; on the code the first loop iteration raises
AttributeError (the stored upsert call passes `clinical_status` and
`raw_text`, which exist neither on ExtractedTest nor in the
`upsert_test_result` signature), so no observation is ever stored and the
document is never marked processed. -/
theorem normalize_and_store_crashes :
    normalize_and_store DB.empty 1 1 1 [fxExtracted] (fun _ => none) 9
      = .error "AttributeError: ExtractedTest has no attribute clinical_status" := by
  rfl

/-- C2: the natural-key uniqueness invariant. The schema constraint makes the
raw INSERT reject a second row for an occupied key, and the operations that
write `test_results` (the upsert in both branches, and the reprocess
deletion) map invariant-satisfying states to invariant-satisfying states. -/
theorem natural_key_unique_invariant
    (db : DB) (a : UpsertArgs) (now doc_id : Nat)
    (hinv : atMostOnePerKey db.test_results) :
    (db.test_results.any (matchesNaturalKey a.user_id a.test_type_id a.test_date a.lab_id)
        = true →
      insertTestResultStmt db a now
        = .error "UNIQUE constraint failed: test_results natural key") ∧
    atMostOnePerKey (upsert_test_result db a now).1.test_results ∧
    atMostOnePerKey (delete_results_for_document db doc_id).1.test_results := by
  refine ⟨?_, ?_, ?_⟩
  · intro h
    unfold insertTestResultStmt
    rw [h]
    rfl
  · rcases hcase : findResultByKey db a with _ | e
    · have hfresh := List.find?_eq_none.mp hcase
      unfold upsert_test_result
      rw [hcase]
      unfold atMostOnePerKey
      rw [List.pairwise_append]
      refine ⟨hinv, by simp, ?_⟩
      intro r hr b hb
      simp only [List.mem_singleton] at hb
      subst hb
      rw [naturalKeyOf_newResultRow]
      intro hkey
      exact hfresh r hr (matchesNaturalKey_eq_true_iff.mpr hkey)
    · unfold upsert_test_result
      rw [hcase]
      unfold atMostOnePerKey
      rw [List.pairwise_map]
      refine List.Pairwise.imp ?_ hinv
      intro r1 r2 h12
      have k1 : naturalKeyOf (if r1.id == e.id then updateRowFields a now r1 else r1)
          = naturalKeyOf r1 := by split <;> rfl
      have k2 : naturalKeyOf (if r2.id == e.id then updateRowFields a now r2 else r2)
          = naturalKeyOf r2 := by split <;> rfl
      rw [k1, k2]
      exact h12
  · unfold delete_results_for_document
    exact hinv.sublist (List.filter_sublist _)

/-- C2 witness: the invariant evaluated across a concrete upsert from the
empty state. -/
theorem natural_key_unique_invariant_witness :
    atMostOnePerKey (upsert_test_result DB.empty fxArgs 1).1.test_results :=
  (natural_key_unique_invariant DB.empty fxArgs 1 1 List.Pairwise.nil).2.1

/-- C1: two upserts for the same natural key starting from a state with no
row for that key: the first call creates (created = True), the second call
updates the same row (same id, created = False), exactly one row exists for
the key afterwards, and its written fields are the second payload. -/
theorem upsert_twice_last_write_wins
    (db : DB) (a1 a2 : UpsertArgs) (now1 now2 : Nat)
    (hu : a2.user_id = a1.user_id) (ht : a2.test_type_id = a1.test_type_id)
    (hd : a2.test_date = a1.test_date) (hl : a2.lab_id = a1.lab_id)
    (hfresh : ∀ r ∈ db.test_results,
        matchesNaturalKey a1.user_id a1.test_type_id a1.test_date a1.lab_id r = false) :
    (upsert_test_result db a1 now1).2.2 = true ∧
    (upsert_test_result (upsert_test_result db a1 now1).1 a2 now2).2.2 = false ∧
    (upsert_test_result (upsert_test_result db a1 now1).1 a2 now2).2.1
        = (upsert_test_result db a1 now1).2.1 ∧
    (upsert_test_result (upsert_test_result db a1 now1).1 a2 now2).1.test_results.countP
        (matchesNaturalKey a1.user_id a1.test_type_id a1.test_date a1.lab_id) = 1 ∧
    ∀ r ∈ (upsert_test_result (upsert_test_result db a1 now1).1 a2 now2).1.test_results,
      matchesNaturalKey a1.user_id a1.test_type_id a1.test_date a1.lab_id r = true →
      r.document_id = a2.document_id ∧ r.lab_test_name = a2.lab_test_name ∧
      r.value = a2.value ∧ r.value_text = a2.value_text ∧
      r.value_normalized = a2.value_normalized ∧ r.unit = a2.unit ∧
      r.lower_limit = a2.lower_limit ∧ r.upper_limit = a2.upper_limit ∧
      r.interpretation = a2.interpretation ∧ r.documentation = a2.documentation := by
  have hfind1 : findResultByKey db a1 = none := by
    apply List.find?_eq_none.mpr
    intro x hx
    simp [hfresh x hx]
  obtain ⟨hrows1, hid1, hc1⟩ := upsert_insert_parts db a1 now1 hfind1
  have hfind2 : findResultByKey (upsert_test_result db a1 now1).1 a2
      = some (newResultRow db a1 now1) := by
    unfold findResultByKey
    rw [hrows1, hu, ht, hd, hl, List.find?_append]
    have hfind1' : db.test_results.find?
        (matchesNaturalKey a1.user_id a1.test_type_id a1.test_date a1.lab_id) = none := hfind1
    rw [hfind1']
    simp [List.find?, matchesNaturalKey_newResultRow]
  obtain ⟨hrows2, hid2, hc2⟩ :=
    upsert_update_parts (upsert_test_result db a1 now1).1 a2 now2 (newResultRow db a1 now1) hfind2
  refine ⟨hc1, hc2, by rw [hid2, hid1]; rfl, ?_, ?_⟩
  · rw [hrows2, hrows1, List.countP_map]
    have hcomp : ∀ r ∈ db.test_results ++ [newResultRow db a1 now1],
        ((matchesNaturalKey a1.user_id a1.test_type_id a1.test_date a1.lab_id ∘ fun r =>
            if r.id == (newResultRow db a1 now1).id then updateRowFields a2 now2 r else r) r)
          = true ↔
        matchesNaturalKey a1.user_id a1.test_type_id a1.test_date a1.lab_id r = true := by
      intro r _
      simp only [Function.comp_apply]
      split
      · rw [matchesNaturalKey_updateRowFields]
      · exact Iff.rfl
    rw [List.countP_congr hcomp, List.countP_append]
    have hz : db.test_results.countP
        (matchesNaturalKey a1.user_id a1.test_type_id a1.test_date a1.lab_id) = 0 := by
      rw [List.countP_eq_zero]
      intro r hr
      simp [hfresh r hr]
    rw [hz]
    simp [List.countP_cons, matchesNaturalKey_newResultRow]
  · intro r hr hkey
    rw [hrows2, hrows1] at hr
    rw [List.mem_map] at hr
    obtain ⟨r0, hr0, rfl⟩ := hr
    rw [List.mem_append] at hr0
    rcases hr0 with h | h
    · exfalso
      have hpres : matchesNaturalKey a1.user_id a1.test_type_id a1.test_date a1.lab_id
          (if r0.id == (newResultRow db a1 now1).id then updateRowFields a2 now2 r0 else r0)
            = matchesNaturalKey a1.user_id a1.test_type_id a1.test_date a1.lab_id r0 := by
        split
        · exact matchesNaturalKey_updateRowFields a2 now2 r0
        · rfl
      rw [hpres, hfresh r0 h] at hkey
      exact Bool.false_ne_true hkey
    · simp only [List.mem_singleton] at h
      subst h
      simp only [beq_self_eq_true, if_true]
      and_intros <;> rfl

/-- C1 witness: the double-upsert scenario of the test suite evaluated
concretely (value 95 then value 110). -/
theorem upsert_twice_last_write_wins_witness :
    (upsert_test_result DB.empty fxArgs 1).2.2 = true ∧
    (upsert_test_result (upsert_test_result DB.empty fxArgs 1).1 fxArgs2 2).2.2 = false ∧
    (upsert_test_result (upsert_test_result DB.empty fxArgs 1).1 fxArgs2 2).2.1
        = (upsert_test_result DB.empty fxArgs 1).2.1 ∧
    (upsert_test_result (upsert_test_result DB.empty fxArgs 1).1 fxArgs2 2).1.test_results.countP
        (matchesNaturalKey fxArgs.user_id fxArgs.test_type_id fxArgs.test_date fxArgs.lab_id)
      = 1 := by
  have h := upsert_twice_last_write_wins DB.empty fxArgs fxArgs2 1 2 rfl rfl rfl rfl
    (fun r hr => absurd hr (List.not_mem_nil r))
  exact ⟨h.1, h.2.1, h.2.2.1, h.2.2.2.1⟩

/-- The deterministic fallback reuses an existing test type whenever the
chosen name has a case-insensitive hit in the candidate list, without
touching the database. -/
theorem testTypeFallback_reuses
    (db : DB) (ets : List TestTypeRow) (result : TestMatchDict) (s : String)
    (hsn : result.standard_name = some s)
    (t0 : TestTypeRow) (hmem0 : t0 ∈ ets)
    (hlow : pyLower t0.standard_name = pyLower s) :
    ∃ t, testTypeFallback db ets result = .ok (db, t) ∧ t ∈ ets ∧
         pyLower t.standard_name = pyLower s := by
  unfold testTypeFallback
  have hsome : (ets.find? (fun t => pyLower t.standard_name == pyLower s)).isSome := by
    rw [List.find?_isSome]
    exact ⟨t0, hmem0, by simp [hlow]⟩
  obtain ⟨t, hfind⟩ := Option.isSome_iff_exists.mp hsome
  simp only [hsn, hfind]
  refine ⟨t, rfl, List.mem_of_find?_eq_some hfind, ?_⟩
  simpa using List.find?_some hfind

/-- C3: whenever the chosen standard name (the classifier's reported name, or
the suggested name after a parse failure) matches an existing test type
case-insensitively, `get_or_create_test_type` returns an existing registry
entry and leaves the database unchanged, whatever the match verdict was. -/
theorem test_type_case_insensitive_reuse
    (db : DB) (extracted : ExtractedTest) (response : Option TestMatchDict)
    (s : String) (hchosen : chosen_standard_name extracted response = some s)
    (t0 : TestTypeRow) (hmem : t0 ∈ db.test_types)
    (hlow : pyLower t0.standard_name = pyLower s) :
    ∃ t, get_or_create_test_type db extracted response = .ok (db, t) ∧
         t ∈ db.test_types ∧ pyLower t.standard_name = pyLower s := by
  have hne : (list_test_types db).isEmpty = false :=
    list_test_types_isEmpty_false (List.ne_nil_of_mem hmem)
  have hmem' : t0 ∈ list_test_types db := mem_list_test_types.mpr hmem
  simp only [get_or_create_test_type, hne, Bool.false_eq_true, if_false]
  rcases response with _ | d
  · simp only [chosen_standard_name, Option.some.injEq] at hchosen
    subst hchosen
    simp only [Option.getD_some, Bool.false_eq_true, if_false]
    obtain ⟨t, hok, htm, hts⟩ := testTypeFallback_reuses db (list_test_types db)
      { match_val := some false, standard_name := some extracted.suggested_standard_name }
      extracted.suggested_standard_name rfl t0 hmem' hlow
    exact ⟨t, hok, mem_list_test_types.mp htm, hts⟩
  · simp only [chosen_standard_name] at hchosen
    rcases hm : d.match_val.getD false
    · simp only [hm, Bool.false_eq_true, if_false]
      obtain ⟨t, hok, htm, hts⟩ :=
        testTypeFallback_reuses db (list_test_types db) d s hchosen t0 hmem' hlow
      exact ⟨t, hok, mem_list_test_types.mp htm, hts⟩
    · simp only [hm, if_true]
      rw [hchosen]
      rcases hfind : (list_test_types db).find? (fun t => t.standard_name == s) with _ | t
      · simp only [hfind]
        obtain ⟨t, hok, htm, hts⟩ :=
          testTypeFallback_reuses db (list_test_types db) d s hchosen t0 hmem' hlow
        exact ⟨t, hok, mem_list_test_types.mp htm, hts⟩
      · simp only [hfind]
        refine ⟨t, rfl, mem_list_test_types.mp (List.mem_of_find?_eq_some hfind), ?_⟩
        have : t.standard_name = s := by simpa using List.find?_some hfind
        rw [this]

/-- C3 witness: the registered "Blood Glucose" is reused for the suggested
name "blood glucose" after an unparseable classifier reply. -/
theorem test_type_case_insensitive_reuse_witness :
    ∃ t, get_or_create_test_type fxDbOneType fxExtracted none = .ok (fxDbOneType, t) ∧
         t ∈ fxDbOneType.test_types ∧
         pyLower t.standard_name = pyLower "blood glucose" :=
  test_type_case_insensitive_reuse fxDbOneType fxExtracted none "blood glucose" rfl
    fxTypeRow (by simp [fxDbOneType]) (by decide)

/-- The deterministic fallback never fails when the dict carries a
standard_name: it either reuses a case-insensitive hit or creates, and the
creation cannot collide with the UNIQUE standard_name column because an
exact-name twin would have been a case-insensitive hit. -/
theorem testTypeFallback_isOk
    (db : DB) (result : TestMatchDict) (s : String)
    (hsn : result.standard_name = some s) :
    ∃ out, testTypeFallback db (list_test_types db) result = .ok out := by
  unfold testTypeFallback
  rcases hfind : (list_test_types db).find?
      (fun t => pyLower t.standard_name == pyLower s) with _ | t
  · have hfresh : ∀ t0 ∈ db.test_types, t0.standard_name ≠ s := by
      intro t0 ht0 heq
      have hall := List.find?_eq_none.mp hfind
      exact hall t0 (mem_list_test_types.mpr ht0) (by simp [heq])
    obtain ⟨p, hp⟩ := @create_test_type_isOk db s none none hfresh
    simp only [hsn, hfind, hp]
    exact ⟨_, rfl⟩
  · simp only [hsn, hfind]
    exact ⟨_, rfl⟩

/-- C5 counterexample: the claim says a malformed or inconsistent
disambiguation response is always treated as no-match and never aborts. On
the code, a response that parses to a dict whose "match" is truthy but that
lacks the "standard_name" key raises an uncaught KeyError in the test-type
resolver. -/
theorem resolver_malformed_cex :
    get_or_create_test_type fxDbOneType fxExtracted
        (some { match_val := some true, standard_name := none })
      = .error "KeyError: standard_name" := by
  rfl

/-- C5 amended: unparseable responses are treated as no-match and never
raise; a match-true response whose reported name is absent from the registry
falls through to the deterministic check and never raises; for the lab
resolver an unparseable response, or a match-true response whose lab_id
dangles, proceeds to creation without error provided the extracted name does
not collide with the UNIQUE labs.name column. (A parseable dict lacking the
expected key still raises KeyError, and a name collision still aborts: see
the counterexamples.) -/
theorem resolver_malformed_handling :
    (∀ (db : DB) (et : ExtractedTest),
      ∃ out, get_or_create_test_type db et none = .ok out) ∧
    (∀ (db : DB) (et : ExtractedTest) (s : String),
      (∀ t0 ∈ db.test_types, t0.standard_name ≠ s) →
      ∃ out, get_or_create_test_type db et
          (some { match_val := some true, standard_name := some s }) = .ok out) ∧
    (∀ (db : DB) (el : ExtractedLab) (now : Nat),
      (∀ l0 ∈ db.labs, l0.name ≠ el.name) →
      ∃ out, get_or_create_lab db el none now = .ok out) ∧
    (∀ (db : DB) (el : ExtractedLab) (now lid : Nat),
      (∀ lab ∈ db.labs, lab.id ≠ lid) →
      (∀ l0 ∈ db.labs, l0.name ≠ el.name) →
      ∃ out, get_or_create_lab db el
          (some { match_val := some true, lab_id := some lid }) now = .ok out) := by
  have hTcreateEmpty : ∀ (db : DB) (name : String), db.test_types = [] →
      ∃ p, create_test_type db name none none = .ok p := by
    intro db name hnil
    refine create_test_type_isOk ?_
    intro t0 ht0
    rw [hnil] at ht0
    cases ht0
  have hLabCreate : ∀ (db : DB) (el : ExtractedLab) (now : Nat),
      (∀ l0 ∈ db.labs, l0.name ≠ el.name) →
      ∃ out, (match create_lab db el.name el.address el.phone el.email el.accreditation now with
              | .ok p => .ok (p.1, ({ id := p.2, name := el.name, address := el.address,
                                      phone := el.phone, email := el.email,
                                      accreditation := el.accreditation,
                                      created_at := now } : LabRow))
              | .error e => .error e) = Except.ok out := by
    intro db el now hfresh
    obtain ⟨p, hp⟩ := create_lab_isOk hfresh
    rw [hp]
    exact ⟨_, rfl⟩
  refine ⟨?_, ?_, ?_, ?_⟩
  · intro db et
    rcases hemp : (list_test_types db).isEmpty with _ | _
    · simp only [get_or_create_test_type, hemp, Bool.false_eq_true, if_false,
        Option.getD_some]
      exact testTypeFallback_isOk db _ et.suggested_standard_name rfl
    · have hnil : db.test_types = [] := by
        have := List.isEmpty_iff.mp hemp
        exact orderBy_nil_iff.mp this
      obtain ⟨p, hp⟩ := hTcreateEmpty db et.suggested_standard_name hnil
      simp only [get_or_create_test_type, hemp, if_true, hp]
      exact ⟨_, rfl⟩
  · intro db et s hfresh
    rcases hemp : (list_test_types db).isEmpty with _ | _
    · have hnone : (list_test_types db).find? (fun t => t.standard_name == s) = none := by
        rw [List.find?_eq_none]
        intro t ht
        simp only [beq_iff_eq]
        exact hfresh t (mem_list_test_types.mp ht)
      simp only [get_or_create_test_type, hemp, Bool.false_eq_true, if_false,
        Option.getD_some, if_true, hnone]
      exact testTypeFallback_isOk db _ s rfl
    · have hnil : db.test_types = [] := orderBy_nil_iff.mp (List.isEmpty_iff.mp hemp)
      obtain ⟨p, hp⟩ := hTcreateEmpty db et.suggested_standard_name hnil
      simp only [get_or_create_test_type, hemp, if_true, hp]
      exact ⟨_, rfl⟩
  · intro db el now hfresh
    rcases hemp : (list_labs db).isEmpty with _ | _
    · simp only [get_or_create_lab, hemp, Bool.false_eq_true, if_false,
        Option.getD_some]
      exact hLabCreate db el now hfresh
    · simp only [get_or_create_lab, hemp, if_true]
      exact hLabCreate db el now hfresh
  · intro db el now lid hdangling hfresh
    rcases hemp : (list_labs db).isEmpty with _ | _
    · have hnone : (list_labs db).find? (fun lab => lab.id == lid) = none := by
        rw [List.find?_eq_none]
        intro lab hlab
        simp only [beq_iff_eq]
        exact hdangling lab (mem_list_labs.mp hlab)
      simp only [get_or_create_lab, hemp, Bool.false_eq_true, if_false,
        Option.getD_some, if_true, hnone]
      exact hLabCreate db el now hfresh
    · simp only [get_or_create_lab, hemp, if_true]
      exact hLabCreate db el now hfresh

/-- C5 amended witness: the recovery paths evaluated concretely (unparseable
reply to the test resolver; dangling-id match reply to the lab resolver). -/
theorem resolver_malformed_handling_witness :
    (∃ out, get_or_create_test_type fxDbOneType fxExtracted none = .ok out) ∧
    (∃ out, get_or_create_lab fxDbOneLab fxExtractedLabNew
        (some { match_val := some true, lab_id := some 99 }) 3 = .ok out) :=
  ⟨resolver_malformed_handling.1 fxDbOneType fxExtracted,
   resolver_malformed_handling.2.2.2 fxDbOneLab fxExtractedLabNew 3 99
     (by decide) (by decide)⟩

/-- C4 counterexample: the claim says the lab resolver is total and in
particular creates without error whenever the classifier reports no match. On
the code, a no-match verdict for an extracted lab whose name equals a
registered lab name makes `create_lab` violate the UNIQUE labs.name
constraint, and the error propagates out of the resolver. -/
theorem lab_resolver_total_cex :
    get_or_create_lab fxDbOneLab fxExtractedLab
        (some { match_val := some false, lab_id := none }) 7
      = .error "UNIQUE constraint failed: labs.name" := by
  rfl

/-- C4 amended: on an empty registry the resolver unconditionally creates
exactly one new Laboratory from the extracted fields, whatever the response;
on a non-empty registry it is total provided the extracted name does not
collide with an existing lab name and a truthy match response carries a
lab_id. -/
theorem lab_resolver_total_amended :
    (∀ (db : DB) (el : ExtractedLab) (response : Option LabMatchDict) (now : Nat),
      db.labs = [] →
      get_or_create_lab db el response now
        = .ok ({ db with
                  labs := [{ id := db.next_lab_id, name := el.name, address := el.address,
                             phone := el.phone, email := el.email,
                             accreditation := el.accreditation, created_at := now }]
                  next_lab_id := db.next_lab_id + 1 },
               { id := db.next_lab_id, name := el.name, address := el.address,
                 phone := el.phone, email := el.email,
                 accreditation := el.accreditation, created_at := now })) ∧
    (∀ (db : DB) (el : ExtractedLab) (response : Option LabMatchDict) (now : Nat),
      (∀ l0 ∈ db.labs, l0.name ≠ el.name) →
      ((response.getD { match_val := some false, lab_id := none }).match_val.getD false
          = true →
        (response.getD { match_val := some false, lab_id := none }).lab_id ≠ none) →
      ∃ out, get_or_create_lab db el response now = .ok out) := by
  have hpart1 : ∀ (db : DB) (el : ExtractedLab) (response : Option LabMatchDict) (now : Nat),
      db.labs = [] →
      get_or_create_lab db el response now
        = .ok ({ db with
                  labs := [{ id := db.next_lab_id, name := el.name, address := el.address,
                             phone := el.phone, email := el.email,
                             accreditation := el.accreditation, created_at := now }]
                  next_lab_id := db.next_lab_id + 1 },
               { id := db.next_lab_id, name := el.name, address := el.address,
                 phone := el.phone, email := el.email,
                 accreditation := el.accreditation, created_at := now }) := by
    intro db el response now hnil
    have hLnil : list_labs db = [] := by
      unfold list_labs
      rw [hnil]
      rfl
    simp only [get_or_create_lab, hLnil, List.isEmpty_nil, if_true, create_lab, hnil,
      List.any_nil, Bool.false_eq_true, if_false, List.nil_append]
  refine ⟨hpart1, ?_⟩
  intro db el response now hfresh hshape
  rcases hemp : (list_labs db).isEmpty with _ | _
  · have hLabCreate :
        ∃ out, (match create_lab db el.name el.address el.phone el.email el.accreditation now with
                | .ok p => .ok (p.1, ({ id := p.2, name := el.name, address := el.address,
                                        phone := el.phone, email := el.email,
                                        accreditation := el.accreditation,
                                        created_at := now } : LabRow))
                | .error e => .error e) = Except.ok out := by
      obtain ⟨p, hp⟩ := create_lab_isOk hfresh
      rw [hp]
      exact ⟨_, rfl⟩
    rcases response with _ | d
    · simp only [get_or_create_lab, hemp, Bool.false_eq_true, if_false,
        Option.getD_none, Option.getD_some]
      exact hLabCreate
    · rcases hm : d.match_val.getD false with _ | _
      · simp only [get_or_create_lab, hemp, Bool.false_eq_true, if_false,
          Option.getD_some, hm]
        exact hLabCreate
      · have hid : d.lab_id ≠ none := by
          have := hshape
          simp only [Option.getD_some] at this
          exact this hm
        rcases hlid : d.lab_id with _ | lid
        · exact absurd hlid hid
        · rcases hfind : (list_labs db).find? (fun lab => lab.id == lid) with _ | lab
          · simp only [get_or_create_lab, hemp, Bool.false_eq_true, if_false,
              Option.getD_some, hm, if_true, hlid, hfind]
            exact hLabCreate
          · simp only [get_or_create_lab, hemp, Bool.false_eq_true, if_false,
              Option.getD_some, hm, if_true, hlid, hfind]
            exact ⟨_, rfl⟩
  · have hnil : db.labs = [] := orderBy_nil_iff.mp (List.isEmpty_iff.mp hemp)
    rw [hpart1 db el response now hnil]
    exact ⟨_, rfl⟩

/-- C4 amended witness: empty-registry creation and a fresh-name no-match
creation evaluated concretely. -/
theorem lab_resolver_total_amended_witness :
    (∃ out, get_or_create_lab DB.empty fxExtractedLabNew none 3 = .ok out) ∧
    (∃ out, get_or_create_lab fxDbOneLab fxExtractedLabNew none 3 = .ok out) :=
  ⟨⟨_, lab_resolver_total_amended.1 DB.empty fxExtractedLabNew none 3 rfl⟩,
   lab_resolver_total_amended.2 fxDbOneLab fxExtractedLabNew none 3
     (by decide) (by simp)⟩

theorem fsHasPath_unlink (fs : FileSys) (p : String) :
    fsHasPath (fsUnlink fs p) p = false := by
  unfold fsHasPath fsUnlink
  rw [List.any_eq_false]
  intro pb hpb
  rw [List.mem_filter] at hpb
  simpa using hpb.2

theorem upload_file_dup_branch (hashFn : List Nat → String) (db : DB) (fs : FileSys)
    (u : Nat) (f : String) (b : List Nat) (n : Nat) (d : DocumentRow)
    (h : get_document_by_hash db (hashFn b) = some d) :
    upload_file hashFn db fs u f b n
      = { db := db,
          fs := fsUnlink (fsSave fs ("uploads/" ++ toString u ++ "_" ++ f) b)
            ("uploads/" ++ toString u ++ "_" ++ f),
          document_id := d.id, is_duplicate := true } := by
  simp only [upload_file, h]

theorem upload_file_new_branch (hashFn : List Nat → String) (db : DB) (fs : FileSys)
    (u : Nat) (f : String) (b : List Nat) (n : Nat)
    (h : get_document_by_hash db (hashFn b) = none) :
    upload_file hashFn db fs u f b n
      = { db := { db with
            documents := db.documents ++
              [{ id := db.next_document_id, user_id := u, lab_id := none,
                 file_path := "uploads/" ++ toString u ++ "_" ++ f,
                 content_hash := hashFn b, uploaded_at := n, processed_at := none,
                 tokens := none, cost := none }]
            next_document_id := db.next_document_id + 1 },
          fs := fsSave fs ("uploads/" ++ toString u ++ "_" ++ f) b,
          document_id := db.next_document_id, is_duplicate := false } := by
  simp only [upload_file, h, create_document]

/-- C8: reprocessing deletes exactly the Observations owned by the document
(every row owned by another document survives, every surviving row was
present before and is not owned by the document), reports the deleted count,
keeps every Document row (same count; rows of other documents untouched),
resets the document to unprocessed, and preserves every document's id,
laboratory link, owner, path and fingerprint. -/
theorem reprocess_frame (db : DB) (doc_id : Nat) :
    (reprocess_document db doc_id).1.test_results
        = db.test_results.filter (fun r => !(r.document_id == doc_id)) ∧
    (reprocess_document db doc_id).2
        = (db.test_results.filter (fun r => r.document_id == doc_id)).length ∧
    (∀ r ∈ db.test_results, r.document_id ≠ doc_id →
        r ∈ (reprocess_document db doc_id).1.test_results) ∧
    (∀ r ∈ (reprocess_document db doc_id).1.test_results,
        r ∈ db.test_results ∧ r.document_id ≠ doc_id) ∧
    (reprocess_document db doc_id).1.documents.length = db.documents.length ∧
    (∀ d ∈ db.documents, d.id ≠ doc_id →
        d ∈ (reprocess_document db doc_id).1.documents) ∧
    (∀ d ∈ db.documents, d.id = doc_id →
        ({ d with processed_at := none } : DocumentRow)
          ∈ (reprocess_document db doc_id).1.documents) ∧
    (∀ d ∈ (reprocess_document db doc_id).1.documents,
        ∃ d0 ∈ db.documents, d.id = d0.id ∧ d.lab_id = d0.lab_id ∧
          d.user_id = d0.user_id ∧ d.file_path = d0.file_path ∧
          d.content_hash = d0.content_hash) := by
  have hres : (reprocess_document db doc_id).1.test_results
      = db.test_results.filter (fun r => !(r.document_id == doc_id)) := rfl
  have hdocs : (reprocess_document db doc_id).1.documents
      = db.documents.map
          (fun d => if d.id == doc_id then { d with processed_at := none } else d) := rfl
  refine ⟨hres, rfl, ?_, ?_, ?_, ?_, ?_, ?_⟩
  · intro r hr hne
    rw [hres, List.mem_filter]
    exact ⟨hr, by simp [hne]⟩
  · intro r hr
    rw [hres, List.mem_filter] at hr
    refine ⟨hr.1, ?_⟩
    simpa using hr.2
  · rw [hdocs, List.length_map]
  · intro d hd hne
    rw [hdocs]
    refine List.mem_map.mpr ⟨d, hd, ?_⟩
    simp [hne]
  · intro d hd heq
    rw [hdocs]
    refine List.mem_map.mpr ⟨d, hd, ?_⟩
    simp [heq]
  · intro d hd
    rw [hdocs] at hd
    obtain ⟨d0, hd0, rfl⟩ := List.mem_map.mp hd
    refine ⟨d0, hd0, ?_⟩
    split <;> exact ⟨rfl, rfl, rfl, rfl, rfl⟩

/-- C8 witness: reprocessing document 1 of the two-document fixture. -/
theorem reprocess_frame_witness :
    (reprocess_document fxDbTwoResults 1).1.test_results
        = fxDbTwoResults.test_results.filter (fun r => !(r.document_id == 1)) ∧
    (reprocess_document fxDbTwoResults 1).2
        = (fxDbTwoResults.test_results.filter (fun r => r.document_id == 1)).length ∧
    (reprocess_document fxDbTwoResults 1).1.documents.length
        = fxDbTwoResults.documents.length :=
  ⟨(reprocess_frame fxDbTwoResults 1).1, (reprocess_frame fxDbTwoResults 1).2.1,
   (reprocess_frame fxDbTwoResults 1).2.2.2.2.1⟩

/-- C7: starting from a state with no ingested documents, a first upload
creates one Document; re-uploading identical bytes is reported as a duplicate
carrying the original document id, creates no Document row, and deletes the
fresh disk copy; uploading bytes whose fingerprint differs creates a wholly
new Document with a new id. -/
theorem upload_dedup
    (hashFn : List Nat → String) (db : DB) (fs : FileSys)
    (u1 u2 : Nat) (f1 f2 : String) (b0 b1 : List Nat) (n1 n2 : Nat)
    (hdocs : db.documents = []) :
    (upload_file hashFn db fs u1 f1 b0 n1).is_duplicate = false ∧
    (upload_file hashFn db fs u1 f1 b0 n1).db.documents.length = 1 ∧
    ((upload_file hashFn (upload_file hashFn db fs u1 f1 b0 n1).db
        (upload_file hashFn db fs u1 f1 b0 n1).fs u2 f2 b0 n2).is_duplicate = true ∧
     (upload_file hashFn (upload_file hashFn db fs u1 f1 b0 n1).db
        (upload_file hashFn db fs u1 f1 b0 n1).fs u2 f2 b0 n2).document_id
        = (upload_file hashFn db fs u1 f1 b0 n1).document_id ∧
     (upload_file hashFn (upload_file hashFn db fs u1 f1 b0 n1).db
        (upload_file hashFn db fs u1 f1 b0 n1).fs u2 f2 b0 n2).db.documents
        = (upload_file hashFn db fs u1 f1 b0 n1).db.documents ∧
     fsHasPath (upload_file hashFn (upload_file hashFn db fs u1 f1 b0 n1).db
        (upload_file hashFn db fs u1 f1 b0 n1).fs u2 f2 b0 n2).fs
        ("uploads/" ++ toString u2 ++ "_" ++ f2) = false) ∧
    (hashFn b1 ≠ hashFn b0 →
     (upload_file hashFn (upload_file hashFn db fs u1 f1 b0 n1).db
        (upload_file hashFn db fs u1 f1 b0 n1).fs u2 f2 b1 n2).is_duplicate = false ∧
     (upload_file hashFn (upload_file hashFn db fs u1 f1 b0 n1).db
        (upload_file hashFn db fs u1 f1 b0 n1).fs u2 f2 b1 n2).document_id
        ≠ (upload_file hashFn db fs u1 f1 b0 n1).document_id ∧
     (upload_file hashFn (upload_file hashFn db fs u1 f1 b0 n1).db
        (upload_file hashFn db fs u1 f1 b0 n1).fs u2 f2 b1 n2).db.documents.length = 2) := by
  have hget0 : get_document_by_hash db (hashFn b0) = none := by
    unfold get_document_by_hash
    rw [hdocs]
    rfl
  have e1 := upload_file_new_branch hashFn db fs u1 f1 b0 n1 hget0
  have hdocs1 : (upload_file hashFn db fs u1 f1 b0 n1).db.documents
      = [{ id := db.next_document_id, user_id := u1, lab_id := none,
           file_path := "uploads/" ++ toString u1 ++ "_" ++ f1,
           content_hash := hashFn b0, uploaded_at := n1, processed_at := none,
           tokens := none, cost := none }] := by
    rw [e1]
    show db.documents ++ _ = _
    rw [hdocs]
    rfl
  have hid1 : (upload_file hashFn db fs u1 f1 b0 n1).document_id = db.next_document_id := by
    rw [e1]
  have hnext1 : (upload_file hashFn db fs u1 f1 b0 n1).db.next_document_id
      = db.next_document_id + 1 := by
    rw [e1]
  have hget1 : get_document_by_hash (upload_file hashFn db fs u1 f1 b0 n1).db (hashFn b0)
      = some { id := db.next_document_id, user_id := u1, lab_id := none,
               file_path := "uploads/" ++ toString u1 ++ "_" ++ f1,
               content_hash := hashFn b0, uploaded_at := n1, processed_at := none,
               tokens := none, cost := none } := by
    unfold get_document_by_hash
    rw [hdocs1]
    simp [List.find?]
  have e2 := upload_file_dup_branch hashFn (upload_file hashFn db fs u1 f1 b0 n1).db
      (upload_file hashFn db fs u1 f1 b0 n1).fs u2 f2 b0 n2 _ hget1
  refine ⟨?_, ?_, ⟨?_, ?_, ?_, ?_⟩, ?_⟩
  · rw [e1]
  · rw [hdocs1]
    rfl
  · rw [e2]
  · rw [e2, hid1]
  · rw [e2]
  · rw [e2]
    exact fsHasPath_unlink _ _
  · intro hneq
    have hbeq : (hashFn b0 == hashFn b1) = false := by
      simp only [beq_eq_false_iff_ne, ne_eq]
      exact fun h => hneq h.symm
    have hget2 : get_document_by_hash (upload_file hashFn db fs u1 f1 b0 n1).db (hashFn b1)
        = none := by
      unfold get_document_by_hash
      rw [hdocs1]
      simp [List.find?, hbeq]
    have e3 := upload_file_new_branch hashFn (upload_file hashFn db fs u1 f1 b0 n1).db
        (upload_file hashFn db fs u1 f1 b0 n1).fs u2 f2 b1 n2 hget2
    have hne : (upload_file hashFn db fs u1 f1 b0 n1).db.next_document_id
        ≠ db.next_document_id := by
      rw [hnext1]
      omega
    refine ⟨?_, ?_, ?_⟩
    · rw [e3]
    · rw [e3, hid1]
      exact hne
    · rw [e3]
      show ((upload_file hashFn db fs u1 f1 b0 n1).db.documents ++ _).length = 2
      rw [hdocs1]
      rfl

/-- C7 witness: the duplicate and non-duplicate branches evaluated on
concrete uploads (bytes [0] twice, then bytes [1]). -/
theorem upload_dedup_witness :
    (upload_file fxHash DB.empty ⟨[]⟩ 1 "a.pdf" [0] 1).is_duplicate = false ∧
    (upload_file fxHash DB.empty ⟨[]⟩ 1 "a.pdf" [0] 1).db.documents.length = 1 ∧
    (upload_file fxHash (upload_file fxHash DB.empty ⟨[]⟩ 1 "a.pdf" [0] 1).db
        (upload_file fxHash DB.empty ⟨[]⟩ 1 "a.pdf" [0] 1).fs 1 "b.pdf" [0] 2).is_duplicate
      = true ∧
    (upload_file fxHash (upload_file fxHash DB.empty ⟨[]⟩ 1 "a.pdf" [0] 1).db
        (upload_file fxHash DB.empty ⟨[]⟩ 1 "a.pdf" [0] 1).fs 1 "b.pdf" [0] 2).document_id
      = (upload_file fxHash DB.empty ⟨[]⟩ 1 "a.pdf" [0] 1).document_id ∧
    (upload_file fxHash (upload_file fxHash DB.empty ⟨[]⟩ 1 "a.pdf" [0] 1).db
        (upload_file fxHash DB.empty ⟨[]⟩ 1 "a.pdf" [0] 1).fs 1 "b.pdf" [1] 2).is_duplicate
      = false := by
  have h := upload_dedup fxHash DB.empty ⟨[]⟩ 1 1 "a.pdf" "b.pdf" [0] [1] 1 2 rfl
  exact ⟨h.1, h.2.1, h.2.2.1.1, h.2.2.1.2.1, (h.2.2.2 (by decide)).1⟩

end Analize
